import Mathlib

/-!
Verification of the source-registration workflow of `src/source.py`
(`add_aws_source`): secret resolution, request construction, submission to
the migration service, the already-exists fetch path, and the logging and
error-propagation behaviour.

The collaborators (secret store, migration service) are modelled as an
explicit environment of oracles; the service itself is additionally given a
deterministic stateful model (`serviceEnv`) for the idempotence claims.
Python exceptions are modelled by the `RegError` type: the code re-raises
the collaborator exceptions unchanged, so each constructor records which
code path the propagated exception came from (the specification names the
logged-and-re-raised service failure `RegistrationFailed`, here
`RegError.serviceError` arising from the generic handler).  Collaborator
calls and log lines are recorded in traces.
-/

set_option autoImplicit false

namespace Migration

/-! ## Model of CPython's strict `bytes.decode("UTF-8")` on a byte list -/

/-- A UTF-8 continuation byte: `0x80 ≤ b < 0xC0`. -/
def utf8Cont (b : Nat) : Bool := 0x80 ≤ b && b < 0xC0

/-- Constraint on the second byte of a three-byte sequence (excludes
overlong encodings for `0xE0` and surrogates for `0xED`). -/
def utf8Cont2 (b1 b2 : Nat) : Bool :=
  if b1 = 0xE0 then 0xA0 ≤ b2 && b2 < 0xC0
  else if b1 = 0xED then 0x80 ≤ b2 && b2 < 0xA0
  else utf8Cont b2

/-- Constraint on the second byte of a four-byte sequence (excludes
overlong encodings for `0xF0` and values above `U+10FFFF` for `0xF4`). -/
def utf8Cont3 (b1 b2 : Nat) : Bool :=
  if b1 = 0xF0 then 0x90 ≤ b2 && b2 < 0xC0
  else if b1 = 0xF4 then 0x80 ≤ b2 && b2 < 0x90
  else utf8Cont b2

/-- Strict UTF-8 decoding of a byte list into characters; `none` models
`UnicodeDecodeError`. -/
def utf8DecodeList : List Nat → Option (List Char)
  | [] => some []
  | b1 :: rest =>
    if b1 < 0x80 then
      (utf8DecodeList rest).map (fun cs => Char.ofNat b1 :: cs)
    else if 0xC2 ≤ b1 && b1 ≤ 0xDF then
      match rest with
      | b2 :: rest2 =>
        if utf8Cont b2 then
          (utf8DecodeList rest2).map
            (fun cs => Char.ofNat ((b1 - 0xC0) * 0x40 + (b2 - 0x80)) :: cs)
        else none
      | [] => none
    else if 0xE0 ≤ b1 && b1 ≤ 0xEF then
      match rest with
      | b2 :: b3 :: rest3 =>
        if utf8Cont2 b1 b2 && utf8Cont b3 then
          (utf8DecodeList rest3).map
            (fun cs =>
              Char.ofNat ((b1 - 0xE0) * 0x1000 + (b2 - 0x80) * 0x40 + (b3 - 0x80)) :: cs)
        else none
      | _ => none
    else if 0xF0 ≤ b1 && b1 ≤ 0xF4 then
      match rest with
      | b2 :: b3 :: b4 :: rest4 =>
        if utf8Cont3 b1 b2 && utf8Cont b3 && utf8Cont b4 then
          (utf8DecodeList rest4).map
            (fun cs =>
              Char.ofNat ((b1 - 0xF0) * 0x40000 + (b2 - 0x80) * 0x1000 +
                (b3 - 0x80) * 0x40 + (b4 - 0x80)) :: cs)
        else none
      | _ => none
    else none

/-- `bytes.decode("UTF-8")` as used on the secret payloads. -/
def utf8Decode (bs : List Nat) : Option String :=
  (utf8DecodeList bs).map String.mk

/-! ## Data model (`vmmigration_v1` request/response objects) -/

/-- `vmmigration_v1.AccessKeyCredentials`. -/
structure AccessKeyCredentials where
  access_key_id : String
  secret_access_key : String
  deriving DecidableEq

/-- `vmmigration_v1.AwsSourceDetails`. -/
structure AwsSourceDetails where
  aws_region : String
  access_key_creds : AccessKeyCredentials
  deriving DecidableEq

/-- `vmmigration_v1.Source` (the request payload, a source descriptor). -/
structure Source where
  aws : AwsSourceDetails
  description : String
  deriving DecidableEq

/-- `vmmigration_v1.CreateSourceRequest`. -/
structure CreateSourceRequest where
  parent : String
  source_id : String
  source : Source
  deriving DecidableEq

/-- The remote `MigrationSource` resource, identified by its resource name
(path). -/
structure MigrationSource where
  name : String
  deriving DecidableEq

/-- Errors raised by the collaborators (`google.api_core.exceptions`). -/
inductive SvcError where
  | alreadyExists
  | notFound
  | other (msg : String)
  deriving DecidableEq

/-- Rendering of a collaborator exception for the log line. -/
def svcErrorMessage : SvcError → String
  | .alreadyExists => "AlreadyExists"
  | .notFound => "NotFound"
  | .other m => m

/-- The exception that propagates out of `add_aws_source`, tagged by the
code path it escapes from.  The Python code re-raises the underlying
exception unchanged in every case; the tags keep the origins apart:
`secretNotFound` is the secret-store `NotFound` caught, logged and
re-raised (the `SecretNotFound` of the specification), `decodeError` is the
uncaught `UnicodeDecodeError` of the payload decode, and `serviceError`
carries a migration-service exception propagated either by the generic
logged handler (the `RegistrationFailed` of the specification) or raw out
of the already-exists handler's fetch. -/
inductive RegError where
  | secretNotFound (ref : String)
  | decodeError (ref : String)
  | serviceError (e : SvcError)
  deriving DecidableEq

/-- One collaborator call, as recorded in the call trace. -/
inductive Call where
  | accessSecretVersion (name : String)
  | createSource (req : CreateSourceRequest)
  | operationResult (op : String)
  | getSource (name : String)
  deriving DecidableEq

/-- One emitted log line, with its level. -/
inductive LogEvent where
  | info (msg : String)
  | warning (msg : String)
  | error (msg : String)
  deriving DecidableEq

/-- The collaborators: the secret store (`none` models its `NotFound`
exception) and the migration service.  `createSource` returns an opaque
operation handle awaited by `operationResult`. -/
structure Env where
  resolveSecret : String → Option (List Nat)
  createSource : CreateSourceRequest → Except SvcError String
  operationResult : String → Except SvcError MigrationSource
  getSource : String → Except SvcError MigrationSource

/-! ## The function under verification -/

/-- `client.source_path(project, location, source)`:
`projects/{project}/locations/{location}/sources/{source}`. -/
def source_path (project location source : String) : String :=
  "projects/" ++ project ++ "/locations/" ++ location ++ "/sources/" ++ source

/-- The `CreateSourceRequest` built by `add_aws_source` from the resolved
credentials: parent `projects/{project_id}/locations/{location}`, the AWS
details with the region and credentials, and the generated description. -/
def builtRequest (project_id location source_id aws_region access_key_id secret_access_key : String) :
    CreateSourceRequest :=
  { parent := "projects/" ++ project_id ++ "/locations/" ++ location
    source_id := source_id
    source :=
      { aws :=
          { aws_region := aws_region
            access_key_creds :=
              { access_key_id := access_key_id
                secret_access_key := secret_access_key } }
        description := "AWS source for " ++ aws_region } }

/-- Log text of the secret-resolution failure branch. -/
def secretErrMsg (ref : String) : String :=
  "Could not find a secret. Make sure your secrets exist and you have permissions. Secret name: " ++ ref

/-- Log text announcing the creation attempt. -/
def creatingMsg (source_id project_id location : String) : String :=
  "Creating AWS source \x27" ++ source_id ++ "\x27 in project \x27" ++ project_id ++
    "\x27 location \x27" ++ location ++ "\x27..."

/-- Log text of the success branch. -/
def successMsg (name : String) : String :=
  "Source created successfully: " ++ name

/-- Log text of the already-exists branch. -/
def existsMsg (source_id location : String) : String :=
  "Source \x27" ++ source_id ++ "\x27 already exists in " ++ location ++ ". No action taken."

/-- Log text of the generic failure branch. -/
def failMsg (e : SvcError) : String :=
  "Failed to create source: " ++ svcErrorMessage e

/-- `return client.get_source(name=source_path)` inside the already-exists
handler: an exception from `get_source` propagates unchanged (a handler is
not protected by the remaining `except` clauses of its own `try`). -/
def fetchExisting (env : Env) (path : String) : Except RegError MigrationSource :=
  match env.getSource path with
  | .ok s => .ok s
  | .error e => .error (.serviceError e)

/-- The submission phase of `add_aws_source`: the log line announcing the
creation, then the `try` block around `create_source`/`operation.result`
with its two handlers (`AlreadyExists` → warn and fetch; any other
exception → log and re-raise).  Returns the outcome, the migration-service
calls and the log lines of this phase. -/
def submitAndWait (env : Env) (project_id location source_id : String)
    (request : CreateSourceRequest) :
    Except RegError MigrationSource × List Call × List LogEvent :=
  let logs0 := [LogEvent.info (creatingMsg source_id project_id location)]
  match env.createSource request with
  | .ok op =>
    let logs1 := logs0 ++ [LogEvent.info "Waiting for operation to complete..."]
    match env.operationResult op with
    | .ok response =>
        (.ok response,
         [.createSource request, .operationResult op],
         logs1 ++ [LogEvent.info (successMsg response.name)])
    | .error .alreadyExists =>
        let path := source_path project_id location source_id
        (fetchExisting env path,
         [.createSource request, .operationResult op, .getSource path],
         logs1 ++ [LogEvent.warning (existsMsg source_id location)])
    | .error e =>
        (.error (.serviceError e),
         [.createSource request, .operationResult op],
         logs1 ++ [LogEvent.error (failMsg e)])
  | .error .alreadyExists =>
      let path := source_path project_id location source_id
      (fetchExisting env path,
       [.createSource request, .getSource path],
       logs0 ++ [LogEvent.warning (existsMsg source_id location)])
  | .error e =>
      (.error (.serviceError e),
       [.createSource request],
       logs0 ++ [LogEvent.error (failMsg e)])

/-- Shallow embedding of `add_aws_source` from `src/source.py`: the two
secret resolutions with their `NotFound` handler and unguarded UTF-8
decodes, then the submission phase.  Returns the outcome together with the
trace of collaborator calls and the emitted log lines. -/
def add_aws_source (env : Env)
    (project_id location source_id aws_region access_key_id_secret secret_access_key_secret : String) :
    Except RegError MigrationSource × List Call × List LogEvent :=
  match env.resolveSecret access_key_id_secret with
  | none =>
      (.error (.secretNotFound access_key_id_secret),
       [.accessSecretVersion access_key_id_secret],
       [.error (secretErrMsg access_key_id_secret)])
  | some bytes1 =>
    match utf8Decode bytes1 with
    | none =>
        (.error (.decodeError access_key_id_secret),
         [.accessSecretVersion access_key_id_secret],
         [])
    | some access_key_id =>
      match env.resolveSecret secret_access_key_secret with
      | none =>
          (.error (.secretNotFound secret_access_key_secret),
           [.accessSecretVersion access_key_id_secret,
            .accessSecretVersion secret_access_key_secret],
           [.error (secretErrMsg secret_access_key_secret)])
      | some bytes2 =>
        match utf8Decode bytes2 with
        | none =>
            (.error (.decodeError secret_access_key_secret),
             [.accessSecretVersion access_key_id_secret,
              .accessSecretVersion secret_access_key_secret],
             [])
        | some secret_access_key =>
          let request :=
            builtRequest project_id location source_id aws_region access_key_id secret_access_key
          let out := submitAndWait env project_id location source_id request
          (out.1,
           Call.accessSecretVersion access_key_id_secret ::
             Call.accessSecretVersion secret_access_key_secret :: out.2.1,
           out.2.2)

/-! ## Deterministic stateful model of the migration service -/

/-- State of the remote migration service: the registered sources. -/
structure SvcState where
  sources : List MigrationSource
  deriving DecidableEq

/-- Look up a registered source by resource name. -/
def lookupSource (st : SvcState) (name : String) : Option MigrationSource :=
  st.sources.find? (fun s => s.name == name)

/-- The migration-service collaborator behaving per its documented
contract over state `st`: `createSource` fails with `AlreadyExists` exactly
when the derived path is taken, and otherwise the awaited operation yields
the source at that path; `getSource` fails with `NotFound` for unregistered
paths. -/
def serviceEnv (secrets : String → Option (List Nat)) (st : SvcState) : Env where
  resolveSecret := secrets
  createSource := fun req =>
    let path := req.parent ++ "/sources/" ++ req.source_id
    if (lookupSource st path).isSome then .error .alreadyExists else .ok path
  operationResult := fun path => .ok { name := path }
  getSource := fun name =>
    match lookupSource st name with
    | some s => .ok s
    | none => .error .notFound

/-- Registration of a source in the service state. -/
def svcInsert (st : SvcState) (s : MigrationSource) : SvcState :=
  { sources := s :: st.sources }

/-- One invocation of `add_aws_source` against the stateful service model,
returning the outcome, traces and the service state after the call (the
remote service records a source exactly when a fresh creation succeeded). -/
def runRegister (secrets : String → Option (List Nat)) (st : SvcState)
    (project_id location source_id aws_region access_key_id_secret secret_access_key_secret : String) :
    (Except RegError MigrationSource × List Call × List LogEvent) × SvcState :=
  let out := add_aws_source (serviceEnv secrets st)
    project_id location source_id aws_region access_key_id_secret secret_access_key_secret
  match out.1 with
  | .ok s => (out, if (lookupSource st s.name).isSome then st else svcInsert st s)
  | .error _ => (out, st)

/-! ## Observation predicates on traces -/

/-- Is this call a secret-store call? -/
def Call.isSecretCall : Call → Bool
  | .accessSecretVersion _ => true
  | _ => false

/-- Is this call a `createSource` submission? -/
def Call.isCreateCall : Call → Bool
  | .createSource _ => true
  | _ => false

/-- Is this call an operation-result wait? -/
def Call.isOpCall : Call → Bool
  | .operationResult _ => true
  | _ => false

/-- Is this call a `getSource` read? -/
def Call.isGetCall : Call → Bool
  | .getSource _ => true
  | _ => false

/-- The environment resolves `ref` to a payload that UTF-8-decodes to
`s`. -/
def resolvesTo (env : Env) (ref s : String) : Prop :=
  ∃ bs, env.resolveSecret ref = some bs ∧ utf8Decode bs = some s

/-- The migration service signals `AlreadyExists` for this request: either
the submission itself raises it, or the submission returns an operation
whose awaited result raises it. -/
def alreadyExistsSignalled (env : Env) (req : CreateSourceRequest) : Prop :=
  env.createSource req = .error .alreadyExists ∨
    ∃ op, env.createSource req = .ok op ∧ env.operationResult op = .error .alreadyExists

/-! ## Concrete environments used for evaluation -/

/-- Secret store holding no secrets; the migration service is never
reached. -/
def noSecretsEnv : Env where
  resolveSecret := fun _ => none
  createSource := fun _ => .error (.other "unused")
  operationResult := fun _ => .error (.other "unused")
  getSource := fun _ => .error .notFound

/-- Secrets resolve to one-byte ASCII payloads; the service reports
`AlreadyExists` at submission and serves reads. -/
def alreadyExistsEnv : Env where
  resolveSecret := fun r => if r = "akid-ref" then some [65] else some [66]
  createSource := fun _ => .error .alreadyExists
  operationResult := fun _ => .error (.other "unused")
  getSource := fun name => .ok { name := name }

/-- Secrets resolve; the submission fails with a backend error. -/
def createFailEnv : Env where
  resolveSecret := fun r => if r = "akid-ref" then some [65] else some [66]
  createSource := fun _ => .error (.other "boom")
  operationResult := fun _ => .error (.other "unused")
  getSource := fun _ => .error .notFound

/-- Secrets resolve; `AlreadyExists` at submission, and the subsequent
read fails with `NotFound`. -/
def fetchFailEnv : Env where
  resolveSecret := fun r => if r = "akid-ref" then some [65] else some [66]
  createSource := fun _ => .error .alreadyExists
  operationResult := fun _ => .error (.other "unused")
  getSource := fun _ => .error .notFound

/-- Secret store returning a payload that is not valid UTF-8. -/
def badPayloadEnv : Env where
  resolveSecret := fun _ => some [255]
  createSource := fun _ => .error (.other "unused")
  operationResult := fun _ => .error (.other "unused")
  getSource := fun _ => .error .notFound

/-- Secret store used with the stateful service model. -/
def wSecrets : String → Option (List Nat) := fun r =>
  if r = "akid-ref" then some [65] else some [66]

/-- The access-key-id secret reference of the specification scenario. -/
def akidRef : String := "projects/p/secrets/aws-access-key-id/versions/latest"

/-- The secret-access-key secret reference of the specification
scenario. -/
def sakRef : String := "projects/p/secrets/aws-secret-access-key/versions/latest"

/-- Secret store of the specification scenario: the references resolve to
the ASCII payloads of "AKID123" and "SECRET456". -/
def scenarioSecrets : String → Option (List Nat) := fun r =>
  if r = akidRef then some [65, 75, 73, 68, 49, 50, 51]
  else if r = sakRef then some [83, 69, 67, 82, 69, 84, 52, 53, 54]
  else none

/-! ## Shared unfolding lemmas -/

/-- When both secrets resolve and decode, `add_aws_source` is the two
secret reads followed by the submission phase on the built request. -/
theorem add_aws_source_resolved (env : Env)
    (p l sid reg r1 r2 s1 s2 : String)
    (h1 : resolvesTo env r1 s1) (h2 : resolvesTo env r2 s2) :
    add_aws_source env p l sid reg r1 r2 =
      ((submitAndWait env p l sid (builtRequest p l sid reg s1 s2)).1,
       Call.accessSecretVersion r1 :: Call.accessSecretVersion r2 ::
         (submitAndWait env p l sid (builtRequest p l sid reg s1 s2)).2.1,
       (submitAndWait env p l sid (builtRequest p l sid reg s1 s2)).2.2) := by
  obtain ⟨b1, hb1, hd1⟩ := h1
  obtain ⟨b2, hb2, hd2⟩ := h2
  simp [add_aws_source, hb1, hb2, hd1, hd2]

/-- Helper: against the stateful service with a fresh derived path, the
submission phase succeeds with the source at that path. -/
theorem submitAndWait_fresh
    (secrets : String → Option (List Nat)) (st : SvcState)
    (p l sid : String) (req : CreateSourceRequest)
    (hp : req.parent ++ "/sources/" ++ req.source_id = source_path p l sid)
    (hfresh : lookupSource st (source_path p l sid) = none) :
    (submitAndWait (serviceEnv secrets st) p l sid req).1 =
      .ok { name := source_path p l sid } := by
  have hc : (serviceEnv secrets st).createSource req = .ok (source_path p l sid) := by
    simp only [serviceEnv, hp, hfresh, Option.isSome_none, Bool.false_eq_true, if_false]
  simp only [submitAndWait]
  rw [hc]
  simp [serviceEnv]

/-- Helper: exhaustive enumeration of the five outcomes of the submission
phase (success, already-exists at await, other failure at await,
already-exists at submission, other failure at submission), each with its
exact call and log traces. -/
theorem submitAndWait_shape (env : Env) (p l sid : String) (req : CreateSourceRequest) :
    (∃ op r, env.createSource req = .ok op ∧ env.operationResult op = .ok r ∧
      submitAndWait env p l sid req =
        (.ok r, [.createSource req, .operationResult op],
         [.info (creatingMsg sid p l), .info "Waiting for operation to complete...",
          .info (successMsg r.name)])) ∨
    (∃ op, env.createSource req = .ok op ∧ env.operationResult op = .error .alreadyExists ∧
      submitAndWait env p l sid req =
        (fetchExisting env (source_path p l sid),
         [.createSource req, .operationResult op, .getSource (source_path p l sid)],
         [.info (creatingMsg sid p l), .info "Waiting for operation to complete...",
          .warning (existsMsg sid l)])) ∨
    (∃ op e, e ≠ SvcError.alreadyExists ∧ env.createSource req = .ok op ∧
      env.operationResult op = .error e ∧
      submitAndWait env p l sid req =
        (.error (.serviceError e), [.createSource req, .operationResult op],
         [.info (creatingMsg sid p l), .info "Waiting for operation to complete...",
          .error (failMsg e)])) ∨
    (env.createSource req = .error .alreadyExists ∧
      submitAndWait env p l sid req =
        (fetchExisting env (source_path p l sid),
         [.createSource req, .getSource (source_path p l sid)],
         [.info (creatingMsg sid p l), .warning (existsMsg sid l)])) ∨
    (∃ e, e ≠ SvcError.alreadyExists ∧ env.createSource req = .error e ∧
      submitAndWait env p l sid req =
        (.error (.serviceError e), [.createSource req],
         [.info (creatingMsg sid p l), .error (failMsg e)])) := by
  cases hc : env.createSource req with
  | error e =>
    cases e with
    | alreadyExists =>
      refine Or.inr (Or.inr (Or.inr (Or.inl ⟨rfl, ?_⟩)))
      simp [submitAndWait, hc]
    | notFound =>
      refine Or.inr (Or.inr (Or.inr (Or.inr ⟨.notFound, fun h => SvcError.noConfusion h, rfl, ?_⟩)))
      simp [submitAndWait, hc]
    | other m =>
      refine Or.inr (Or.inr (Or.inr (Or.inr ⟨.other m, fun h => SvcError.noConfusion h, rfl, ?_⟩)))
      simp [submitAndWait, hc]
  | ok op =>
    cases hop : env.operationResult op with
    | ok r =>
      refine Or.inl ⟨op, r, rfl, hop, ?_⟩
      simp [submitAndWait, hc, hop]
    | error e =>
      cases e with
      | alreadyExists =>
        refine Or.inr (Or.inl ⟨op, rfl, hop, ?_⟩)
        simp [submitAndWait, hc, hop]
      | notFound =>
        refine Or.inr (Or.inr (Or.inl ⟨op, .notFound, fun h => SvcError.noConfusion h, rfl, hop, ?_⟩))
        simp [submitAndWait, hc, hop]
      | other m =>
        refine Or.inr (Or.inr (Or.inl ⟨op, .other m, fun h => SvcError.noConfusion h, rfl, hop, ?_⟩))
        simp [submitAndWait, hc, hop]

/-- Helper: exhaustive enumeration of the outcomes of `add_aws_source`
over an arbitrary environment: the four secret-phase failure branches and
the resolved branch. -/
theorem add_aws_source_cases (env : Env) (p l sid reg r1 r2 : String) :
    (env.resolveSecret r1 = none ∧
      add_aws_source env p l sid reg r1 r2 =
        (.error (.secretNotFound r1), [.accessSecretVersion r1], [.error (secretErrMsg r1)])) ∨
    (∃ b1, env.resolveSecret r1 = some b1 ∧ utf8Decode b1 = none ∧
      add_aws_source env p l sid reg r1 r2 =
        (.error (.decodeError r1), [.accessSecretVersion r1], [])) ∨
    (∃ s1, resolvesTo env r1 s1 ∧ env.resolveSecret r2 = none ∧
      add_aws_source env p l sid reg r1 r2 =
        (.error (.secretNotFound r2), [.accessSecretVersion r1, .accessSecretVersion r2],
         [.error (secretErrMsg r2)])) ∨
    (∃ s1 b2, resolvesTo env r1 s1 ∧ env.resolveSecret r2 = some b2 ∧ utf8Decode b2 = none ∧
      add_aws_source env p l sid reg r1 r2 =
        (.error (.decodeError r2), [.accessSecretVersion r1, .accessSecretVersion r2], [])) ∨
    (∃ s1 s2, resolvesTo env r1 s1 ∧ resolvesTo env r2 s2 ∧
      add_aws_source env p l sid reg r1 r2 =
        ((submitAndWait env p l sid (builtRequest p l sid reg s1 s2)).1,
         Call.accessSecretVersion r1 :: Call.accessSecretVersion r2 ::
           (submitAndWait env p l sid (builtRequest p l sid reg s1 s2)).2.1,
         (submitAndWait env p l sid (builtRequest p l sid reg s1 s2)).2.2)) := by
  cases hb1 : env.resolveSecret r1 with
  | none => exact Or.inl ⟨rfl, by simp [add_aws_source, hb1]⟩
  | some b1 =>
    cases hd1 : utf8Decode b1 with
    | none => exact Or.inr (Or.inl ⟨b1, rfl, hd1, by simp [add_aws_source, hb1, hd1]⟩)
    | some s1 =>
      cases hb2 : env.resolveSecret r2 with
      | none =>
        exact Or.inr (Or.inr (Or.inl ⟨s1, ⟨b1, hb1, hd1⟩, rfl, by simp [add_aws_source, hb1, hd1, hb2]⟩))
      | some b2 =>
        cases hd2 : utf8Decode b2 with
        | none =>
          exact Or.inr (Or.inr (Or.inr (Or.inl
            ⟨s1, b2, ⟨b1, hb1, hd1⟩, rfl, hd2, by simp [add_aws_source, hb1, hd1, hb2, hd2]⟩)))
        | some s2 =>
          exact Or.inr (Or.inr (Or.inr (Or.inr
            ⟨s1, s2, ⟨b1, hb1, hd1⟩, ⟨b2, hb2, hd2⟩,
             add_aws_source_resolved env p l sid reg r1 r2 s1 s2 ⟨b1, hb1, hd1⟩ ⟨b2, hb2, hd2⟩⟩)))

/-- Helper: the submission phase always issues its `createSource` call. -/
theorem createSource_mem_submitAndWait (env : Env) (p l sid : String) (req : CreateSourceRequest) :
    Call.createSource req ∈ (submitAndWait env p l sid req).2.1 := by
  rcases submitAndWait_shape env p l sid req with
    ⟨op, r, hc, hop, heq⟩ | ⟨op, hc, hop, heq⟩ | ⟨op, e, hne, hc, hop, heq⟩ | ⟨hc, heq⟩ |
    ⟨e, hne, hc, heq⟩ <;> rw [heq] <;> simp

/-- C1: when the migration service signals `AlreadyExists` (at submission
or when awaiting the operation), `add_aws_source` performs exactly one
subsequent `getSource` call, at the path derived from the parent and the
source id, returns that call's result, and in particular succeeds with the
fetched source whenever the fetch succeeds. -/
theorem alreadyExists_fetches_existing
    (env : Env) (p l sid reg r1 r2 s1 s2 : String)
    (h1 : resolvesTo env r1 s1) (h2 : resolvesTo env r2 s2)
    (hae : alreadyExistsSignalled env (builtRequest p l sid reg s1 s2)) :
    (add_aws_source env p l sid reg r1 r2).1 = fetchExisting env (source_path p l sid) ∧
    List.filter Call.isGetCall (add_aws_source env p l sid reg r1 r2).2.1 =
      [Call.getSource (source_path p l sid)] ∧
    (∀ s, env.getSource (source_path p l sid) = .ok s →
      (add_aws_source env p l sid reg r1 r2).1 = .ok s) := by
  rw [add_aws_source_resolved env p l sid reg r1 r2 s1 s2 h1 h2]
  rcases hae with hc | ⟨op, hok, hop⟩
  · refine ⟨by simp [submitAndWait, hc],
      by simp [submitAndWait, hc, List.filter, Call.isGetCall, Call.isSecretCall], ?_⟩
    intro s hs
    simp [submitAndWait, hc, fetchExisting, hs]
  · refine ⟨by simp [submitAndWait, hok, hop],
      by simp [submitAndWait, hok, hop, List.filter, Call.isGetCall, Call.isSecretCall], ?_⟩
    intro s hs
    simp [submitAndWait, hok, hop, fetchExisting, hs]

/-- C1 witness. -/
theorem alreadyExists_fetches_existing_witness :
    resolvesTo alreadyExistsEnv "akid-ref" "A" ∧
    resolvesTo alreadyExistsEnv "sak-ref" "B" ∧
    alreadyExistsSignalled alreadyExistsEnv (builtRequest "p" "l" "s" "reg" "A" "B") ∧
    (add_aws_source alreadyExistsEnv "p" "l" "s" "reg" "akid-ref" "sak-ref").1 =
      fetchExisting alreadyExistsEnv (source_path "p" "l" "s") :=
  ⟨⟨[65], by decide, by decide⟩, ⟨[66], by decide, by decide⟩, Or.inl rfl,
   (alreadyExists_fetches_existing alreadyExistsEnv "p" "l" "s" "reg" "akid-ref" "sak-ref"
      "A" "B" ⟨[65], by decide, by decide⟩ ⟨[66], by decide, by decide⟩ (Or.inl rfl)).1⟩

/-- C2: against the stateful service model, registering twice with
identical arguments yields a `MigrationSource` with the same derived path
both times, and the second call succeeds (no failure from the identifier
collision): the registration is idempotent. -/
theorem register_idempotent
    (secrets : String → Option (List Nat)) (st : SvcState)
    (p l sid reg r1 r2 s1 s2 : String)
    (h1 : resolvesTo (serviceEnv secrets st) r1 s1)
    (h2 : resolvesTo (serviceEnv secrets st) r2 s2)
    (hfresh : lookupSource st (source_path p l sid) = none) :
    (runRegister secrets st p l sid reg r1 r2).1.1 =
      .ok { name := source_path p l sid } ∧
    (runRegister secrets (runRegister secrets st p l sid reg r1 r2).2 p l sid reg r1 r2).1.1 =
      .ok { name := source_path p l sid } := by
  have h1a : resolvesTo (serviceEnv secrets (svcInsert st { name := source_path p l sid })) r1 s1 := h1
  have h2a : resolvesTo (serviceEnv secrets (svcInsert st { name := source_path p l sid })) r2 s2 := h2
  have key1 := add_aws_source_resolved (serviceEnv secrets st) p l sid reg r1 r2 s1 s2 h1 h2
  have hout1 : (add_aws_source (serviceEnv secrets st) p l sid reg r1 r2).1 =
      .ok { name := source_path p l sid } := by
    rw [key1]
    exact submitAndWait_fresh secrets st p l sid _ rfl hfresh
  have hst2 : (runRegister secrets st p l sid reg r1 r2).2 =
      svcInsert st { name := source_path p l sid } := by
    simp only [runRegister, hout1, hfresh, Option.isSome_none, Bool.false_eq_true, if_false]
  have hfound : lookupSource (svcInsert st { name := source_path p l sid })
      (source_path p l sid) = some { name := source_path p l sid } := by
    simp [lookupSource, svcInsert, List.find?]
  have key2 := add_aws_source_resolved
    (serviceEnv secrets (svcInsert st { name := source_path p l sid })) p l sid reg r1 r2 s1 s2 h1a h2a
  have hc2 : (serviceEnv secrets (svcInsert st { name := source_path p l sid })).createSource
      (builtRequest p l sid reg s1 s2) = .error .alreadyExists := by
    simp only [serviceEnv]
    have : (builtRequest p l sid reg s1 s2).parent ++ "/sources/" ++
        (builtRequest p l sid reg s1 s2).source_id = source_path p l sid := rfl
    rw [this, hfound]
    rfl
  have hout2 : (add_aws_source (serviceEnv secrets (svcInsert st { name := source_path p l sid }))
      p l sid reg r1 r2).1 = .ok { name := source_path p l sid } := by
    rw [key2]
    simp only [submitAndWait]
    rw [hc2]
    simp only [fetchExisting, serviceEnv]
    rw [hfound]
  refine ⟨by simp only [runRegister, hout1], ?_⟩
  rw [hst2]
  simp only [runRegister, hout2]

/-- C2 witness. -/
theorem register_idempotent_witness :
    resolvesTo (serviceEnv wSecrets ⟨[]⟩) "akid-ref" "A" ∧
    resolvesTo (serviceEnv wSecrets ⟨[]⟩) "sak-ref" "B" ∧
    lookupSource ⟨[]⟩ (source_path "p" "l" "s") = none ∧
    ((runRegister wSecrets ⟨[]⟩ "p" "l" "s" "reg" "akid-ref" "sak-ref").1.1 =
        .ok { name := source_path "p" "l" "s" } ∧
      (runRegister wSecrets (runRegister wSecrets ⟨[]⟩ "p" "l" "s" "reg" "akid-ref" "sak-ref").2
          "p" "l" "s" "reg" "akid-ref" "sak-ref").1.1 =
        .ok { name := source_path "p" "l" "s" }) :=
  ⟨⟨[65], by decide, by decide⟩, ⟨[66], by decide, by decide⟩, rfl,
   register_idempotent wSecrets ⟨[]⟩ "p" "l" "s" "reg" "akid-ref" "sak-ref" "A" "B"
     ⟨[65], by decide, by decide⟩ ⟨[66], by decide, by decide⟩ rfl⟩

/-- C3: when a secret reference fails to resolve, `add_aws_source` raises
the secret-store `NotFound` carrying the offending reference after logging
it, having read only the secrets up to the failing one and performed zero
migration-service calls. -/
theorem secret_failure_aborts
    (env : Env) (p l sid reg r1 r2 : String)
    (h : env.resolveSecret r1 = none ∨
      ((∃ s1, resolvesTo env r1 s1) ∧ env.resolveSecret r2 = none)) :
    ((add_aws_source env p l sid reg r1 r2).1 = .error (.secretNotFound r1) ∧
       (add_aws_source env p l sid reg r1 r2).2.1 = [.accessSecretVersion r1] ∧
       (add_aws_source env p l sid reg r1 r2).2.2 = [.error (secretErrMsg r1)]) ∨
    ((add_aws_source env p l sid reg r1 r2).1 = .error (.secretNotFound r2) ∧
       (add_aws_source env p l sid reg r1 r2).2.1 =
         [.accessSecretVersion r1, .accessSecretVersion r2] ∧
       (add_aws_source env p l sid reg r1 r2).2.2 = [.error (secretErrMsg r2)]) := by
  rcases h with h1 | ⟨⟨s1, b1, hb1, hd1⟩, h2⟩
  · exact Or.inl (by simp [add_aws_source, h1])
  · exact Or.inr (by simp [add_aws_source, hb1, hd1, h2])

/-- C3 witness. -/
theorem secret_failure_aborts_witness :
    (noSecretsEnv.resolveSecret "a" = none ∨
      ((∃ s1, resolvesTo noSecretsEnv "a" s1) ∧ noSecretsEnv.resolveSecret "b" = none)) ∧
    (((add_aws_source noSecretsEnv "p" "l" "s" "reg" "a" "b").1 = .error (.secretNotFound "a") ∧
        (add_aws_source noSecretsEnv "p" "l" "s" "reg" "a" "b").2.1 = [.accessSecretVersion "a"] ∧
        (add_aws_source noSecretsEnv "p" "l" "s" "reg" "a" "b").2.2 = [.error (secretErrMsg "a")]) ∨
      ((add_aws_source noSecretsEnv "p" "l" "s" "reg" "a" "b").1 = .error (.secretNotFound "b") ∧
        (add_aws_source noSecretsEnv "p" "l" "s" "reg" "a" "b").2.1 =
          [.accessSecretVersion "a", .accessSecretVersion "b"] ∧
        (add_aws_source noSecretsEnv "p" "l" "s" "reg" "a" "b").2.2 = [.error (secretErrMsg "b")])) :=
  ⟨Or.inl rfl, secret_failure_aborts noSecretsEnv "p" "l" "s" "reg" "a" "b" (Or.inl rfl)⟩

/-- C4: a submission or operation failure other than `AlreadyExists` is
logged with the failure message and the original error is re-raised (the
`RegistrationFailed` of the specification); no `getSource` fetch is made
and exactly one `createSource` submission occurs (no retry). -/
theorem other_failure_raises_registrationFailed
    (env : Env) (p l sid reg r1 r2 s1 s2 : String) (e : SvcError)
    (h1 : resolvesTo env r1 s1) (h2 : resolvesTo env r2 s2)
    (hne : e ≠ SvcError.alreadyExists)
    (he : env.createSource (builtRequest p l sid reg s1 s2) = .error e ∨
      ∃ op, env.createSource (builtRequest p l sid reg s1 s2) = .ok op ∧
        env.operationResult op = .error e) :
    (add_aws_source env p l sid reg r1 r2).1 = .error (.serviceError e) ∧
    LogEvent.error (failMsg e) ∈ (add_aws_source env p l sid reg r1 r2).2.2 ∧
    List.filter Call.isGetCall (add_aws_source env p l sid reg r1 r2).2.1 = [] ∧
    List.filter Call.isCreateCall (add_aws_source env p l sid reg r1 r2).2.1 =
      [Call.createSource (builtRequest p l sid reg s1 s2)] := by
  rw [add_aws_source_resolved env p l sid reg r1 r2 s1 s2 h1 h2]
  rcases he with hc | ⟨op, hok, hop⟩
  · cases e with
    | alreadyExists => exact absurd rfl hne
    | notFound => simp [submitAndWait, hc, List.filter, Call.isGetCall, Call.isCreateCall, Call.isSecretCall]
    | other m => simp [submitAndWait, hc, List.filter, Call.isGetCall, Call.isCreateCall, Call.isSecretCall]
  · cases e with
    | alreadyExists => exact absurd rfl hne
    | notFound => simp [submitAndWait, hok, hop, List.filter, Call.isGetCall, Call.isCreateCall, Call.isSecretCall]
    | other m => simp [submitAndWait, hok, hop, List.filter, Call.isGetCall, Call.isCreateCall, Call.isSecretCall]

/-- C4 witness. -/
theorem other_failure_raises_registrationFailed_witness :
    resolvesTo createFailEnv "akid-ref" "A" ∧
    resolvesTo createFailEnv "sak-ref" "B" ∧
    SvcError.other "boom" ≠ SvcError.alreadyExists ∧
    createFailEnv.createSource (builtRequest "p" "l" "s" "reg" "A" "B") =
      .error (.other "boom") ∧
    (add_aws_source createFailEnv "p" "l" "s" "reg" "akid-ref" "sak-ref").1 =
      .error (.serviceError (.other "boom")) :=
  ⟨⟨[65], by decide, by decide⟩, ⟨[66], by decide, by decide⟩, by decide, rfl,
   (other_failure_raises_registrationFailed createFailEnv "p" "l" "s" "reg" "akid-ref"
      "sak-ref" "A" "B" (.other "boom") ⟨[65], by decide, by decide⟩
      ⟨[66], by decide, by decide⟩ (by decide) (Or.inl rfl)).1⟩

/-- C5: for a fresh pair of parent and source id (not registered in the
service state), `add_aws_source` returns a `MigrationSource` whose path is
the parent string concatenated with "/sources/" and the source id. -/
theorem fresh_register_returns_derived_path
    (secrets : String → Option (List Nat)) (st : SvcState)
    (p l sid reg r1 r2 s1 s2 : String)
    (h1 : resolvesTo (serviceEnv secrets st) r1 s1)
    (h2 : resolvesTo (serviceEnv secrets st) r2 s2)
    (hfresh : lookupSource st (source_path p l sid) = none) :
    (add_aws_source (serviceEnv secrets st) p l sid reg r1 r2).1 =
      .ok { name := source_path p l sid } ∧
    source_path p l sid = ("projects/" ++ p ++ "/locations/" ++ l) ++ "/sources/" ++ sid := by
  rw [add_aws_source_resolved (serviceEnv secrets st) p l sid reg r1 r2 s1 s2 h1 h2]
  exact ⟨submitAndWait_fresh secrets st p l sid _ rfl hfresh, rfl⟩

/-- C5 witness. -/
theorem fresh_register_returns_derived_path_witness :
    resolvesTo (serviceEnv wSecrets ⟨[]⟩) "akid-ref" "A" ∧
    resolvesTo (serviceEnv wSecrets ⟨[]⟩) "sak-ref" "B" ∧
    lookupSource ⟨[]⟩ (source_path "p" "l" "s") = none ∧
    (add_aws_source (serviceEnv wSecrets ⟨[]⟩) "p" "l" "s" "reg" "akid-ref" "sak-ref").1 =
      .ok { name := source_path "p" "l" "s" } :=
  ⟨⟨[65], by decide, by decide⟩, ⟨[66], by decide, by decide⟩, rfl,
   (fresh_register_returns_derived_path wSecrets ⟨[]⟩ "p" "l" "s" "reg" "akid-ref" "sak-ref"
      "A" "B" ⟨[65], by decide, by decide⟩ ⟨[66], by decide, by decide⟩ rfl).1⟩

/-- C6: the submitted descriptor embeds the resolved credentials, forwards
the region verbatim and carries the description "AWS source for "
followed by the region; and in the concrete scenario (parent
projects/p/locations/us-central1, source id src1, secrets AKID123 and
SECRET456, region ca-central-1) the submitted request carries exactly
those values and the returned path is
projects/p/locations/us-central1/sources/src1. -/
theorem descriptor_embeds_credentials :
    (∀ (env : Env) (p l sid reg r1 r2 s1 s2 : String),
      resolvesTo env r1 s1 → resolvesTo env r2 s2 →
      Call.createSource (builtRequest p l sid reg s1 s2) ∈
        (add_aws_source env p l sid reg r1 r2).2.1 ∧
      (builtRequest p l sid reg s1 s2).source.aws.aws_region = reg ∧
      (builtRequest p l sid reg s1 s2).source.aws.access_key_creds =
        { access_key_id := s1, secret_access_key := s2 } ∧
      (builtRequest p l sid reg s1 s2).source.description = "AWS source for " ++ reg) ∧
    ((add_aws_source (serviceEnv scenarioSecrets ⟨[]⟩)
        "p" "us-central1" "src1" "ca-central-1" akidRef sakRef).1 =
      .ok { name := "projects/p/locations/us-central1/sources/src1" } ∧
     Call.createSource
        (builtRequest "p" "us-central1" "src1" "ca-central-1" "AKID123" "SECRET456") ∈
       (add_aws_source (serviceEnv scenarioSecrets ⟨[]⟩)
         "p" "us-central1" "src1" "ca-central-1" akidRef sakRef).2.1) := by
  refine ⟨?_, ?_, ?_⟩
  · intro env p l sid reg r1 r2 s1 s2 h1 h2
    rw [add_aws_source_resolved env p l sid reg r1 r2 s1 s2 h1 h2]
    refine ⟨?_, rfl, rfl, rfl⟩
    exact List.mem_cons_of_mem _ (List.mem_cons_of_mem _
      (createSource_mem_submitAndWait env p l sid (builtRequest p l sid reg s1 s2)))
  · rfl
  · have hcalls : (add_aws_source (serviceEnv scenarioSecrets ⟨[]⟩)
        "p" "us-central1" "src1" "ca-central-1" akidRef sakRef).2.1 =
        [.accessSecretVersion akidRef, .accessSecretVersion sakRef,
         .createSource (builtRequest "p" "us-central1" "src1" "ca-central-1" "AKID123" "SECRET456"),
         .operationResult "projects/p/locations/us-central1/sources/src1"] := rfl
    rw [hcalls]
    simp

/-- C6 witness. -/
theorem descriptor_embeds_credentials_witness :
    resolvesTo (serviceEnv scenarioSecrets ⟨[]⟩) akidRef "AKID123" ∧
    resolvesTo (serviceEnv scenarioSecrets ⟨[]⟩) sakRef "SECRET456" ∧
    (builtRequest "p" "us-central1" "src1" "ca-central-1" "AKID123"
      "SECRET456").source.aws.aws_region = "ca-central-1" ∧
    Call.createSource
        (builtRequest "p" "us-central1" "src1" "ca-central-1" "AKID123" "SECRET456") ∈
      (add_aws_source (serviceEnv scenarioSecrets ⟨[]⟩)
        "p" "us-central1" "src1" "ca-central-1" akidRef sakRef).2.1 := by
  have h1 : resolvesTo (serviceEnv scenarioSecrets ⟨[]⟩) akidRef "AKID123" :=
    ⟨[65, 75, 73, 68, 49, 50, 51], by decide, by decide⟩
  have h2 : resolvesTo (serviceEnv scenarioSecrets ⟨[]⟩) sakRef "SECRET456" :=
    ⟨[83, 69, 67, 82, 69, 84, 52, 53, 54], by decide, by decide⟩
  have app := descriptor_embeds_credentials.1 (serviceEnv scenarioSecrets ⟨[]⟩)
    "p" "us-central1" "src1" "ca-central-1" akidRef sakRef "AKID123" "SECRET456" h1 h2
  exact ⟨h1, h2, app.2.1, app.1⟩

/-- C7 counterexample: with a secret payload that is not valid UTF-8,
`add_aws_source` propagates a failure while its log trace is empty,
refuting the claim that every propagated failure is logged before
propagation. -/
theorem failure_logged_counterexample :
    (∃ e, (add_aws_source badPayloadEnv "p" "l" "s" "reg" "a" "b").1 = .error e) ∧
    (add_aws_source badPayloadEnv "p" "l" "s" "reg" "a" "b").2.2 = [] :=
  ⟨⟨.decodeError "a", rfl⟩, rfl⟩

/-- C7 (amended): every failure `add_aws_source` propagates is logged
before propagation, except the UTF-8 decode errors of secret payloads and
the failures of the `getSource` fetch on the already-exists path, which
propagate unlogged; `AlreadyExists` itself is converted into a fetch, not
swallowed. -/
theorem failures_logged_except_decode_and_fetch
    (env : Env) (p l sid reg r1 r2 : String) (e : RegError)
    (he : (add_aws_source env p l sid reg r1 r2).1 = .error e) :
    (∃ m, LogEvent.error m ∈ (add_aws_source env p l sid reg r1 r2).2.2) ∨
    (∃ ref, e = .decodeError ref) ∨
    (∃ pth, Call.getSource pth ∈ (add_aws_source env p l sid reg r1 r2).2.1) := by
  rcases add_aws_source_cases env p l sid reg r1 r2 with
    ⟨hb, heq⟩ | ⟨b1, hb, hd, heq⟩ | ⟨s1, h1, hb, heq⟩ | ⟨s1, b2, h1, hb, hd, heq⟩ |
    ⟨s1, s2, h1, h2, heq⟩
  · rw [heq]
    exact Or.inl ⟨secretErrMsg r1, by simp⟩
  · rw [heq] at he
    simp only [Except.error.injEq] at he
    exact Or.inr (Or.inl ⟨r1, he.symm⟩)
  · rw [heq]
    exact Or.inl ⟨secretErrMsg r2, by simp⟩
  · rw [heq] at he
    simp only [Except.error.injEq] at he
    exact Or.inr (Or.inl ⟨r2, he.symm⟩)
  · rw [heq] at he ⊢
    rcases submitAndWait_shape env p l sid (builtRequest p l sid reg s1 s2) with
      ⟨op, r, hc, hop, heq2⟩ | ⟨op, hc, hop, heq2⟩ | ⟨op, e2, hne, hc, hop, heq2⟩ |
      ⟨hc, heq2⟩ | ⟨e2, hne, hc, heq2⟩ <;> rw [heq2] at he ⊢
    · simp at he
    · exact Or.inr (Or.inr ⟨source_path p l sid, by simp⟩)
    · exact Or.inl ⟨failMsg e2, by simp⟩
    · exact Or.inr (Or.inr ⟨source_path p l sid, by simp⟩)
    · exact Or.inl ⟨failMsg e2, by simp⟩

/-- C7 witness. -/
theorem failures_logged_except_decode_and_fetch_witness :
    (add_aws_source noSecretsEnv "p" "l" "s" "reg" "a" "b").1 =
      .error (.secretNotFound "a") ∧
    ((∃ m, LogEvent.error m ∈ (add_aws_source noSecretsEnv "p" "l" "s" "reg" "a" "b").2.2) ∨
     (∃ ref, RegError.secretNotFound "a" = RegError.decodeError ref) ∨
     (∃ pth, Call.getSource pth ∈ (add_aws_source noSecretsEnv "p" "l" "s" "reg" "a" "b").2.1)) :=
  ⟨rfl, failures_logged_except_decode_and_fetch noSecretsEnv "p" "l" "s" "reg" "a" "b"
    (.secretNotFound "a") rfl⟩

/-- C8: each secret reference is read exactly once, access key id first
and before any service call; exactly one `createSource` submission is
made, at most one operation wait and at most one `getSource` read occur,
the read only when `AlreadyExists` was signalled and only at the derived
path; no collaborator call is repeated. -/
theorem collaborator_call_discipline
    (env : Env) (p l sid reg r1 r2 s1 s2 : String)
    (h1 : resolvesTo env r1 s1) (h2 : resolvesTo env r2 s2) :
    List.filter Call.isSecretCall (add_aws_source env p l sid reg r1 r2).2.1 =
      [.accessSecretVersion r1, .accessSecretVersion r2] ∧
    List.filter Call.isCreateCall (add_aws_source env p l sid reg r1 r2).2.1 =
      [.createSource (builtRequest p l sid reg s1 s2)] ∧
    (List.filter Call.isOpCall (add_aws_source env p l sid reg r1 r2).2.1).length ≤ 1 ∧
    (List.filter Call.isGetCall (add_aws_source env p l sid reg r1 r2).2.1).length ≤ 1 ∧
    (∀ pth, Call.getSource pth ∈ (add_aws_source env p l sid reg r1 r2).2.1 →
      alreadyExistsSignalled env (builtRequest p l sid reg s1 s2) ∧ pth = source_path p l sid) ∧
    (List.take 2 (add_aws_source env p l sid reg r1 r2).2.1 =
      [.accessSecretVersion r1, .accessSecretVersion r2] ∧
     ∀ c ∈ List.drop 2 (add_aws_source env p l sid reg r1 r2).2.1, c.isSecretCall = false) := by
  rw [add_aws_source_resolved env p l sid reg r1 r2 s1 s2 h1 h2]
  rcases submitAndWait_shape env p l sid (builtRequest p l sid reg s1 s2) with
    ⟨op, r, hc, hop, heq⟩ | ⟨op, hc, hop, heq⟩ | ⟨op, e, hne, hc, hop, heq⟩ | ⟨hc, heq⟩ |
    ⟨e, hne, hc, heq⟩ <;> rw [heq]
  · refine ⟨?_, ?_, ?_, ?_, ?_, ?_, ?_⟩ <;>
      simp [List.filter, Call.isSecretCall, Call.isCreateCall, Call.isOpCall, Call.isGetCall]
  · refine ⟨?_, ?_, ?_, ?_, ?_, ?_, ?_⟩ <;>
      simp [List.filter, Call.isSecretCall, Call.isCreateCall, Call.isOpCall, Call.isGetCall]
    exact Or.inr ⟨op, hc, hop⟩
  · refine ⟨?_, ?_, ?_, ?_, ?_, ?_, ?_⟩ <;>
      simp [List.filter, Call.isSecretCall, Call.isCreateCall, Call.isOpCall, Call.isGetCall]
  · refine ⟨?_, ?_, ?_, ?_, ?_, ?_, ?_⟩ <;>
      simp [List.filter, Call.isSecretCall, Call.isCreateCall, Call.isOpCall, Call.isGetCall]
    exact Or.inl hc
  · refine ⟨?_, ?_, ?_, ?_, ?_, ?_, ?_⟩ <;>
      simp [List.filter, Call.isSecretCall, Call.isCreateCall, Call.isOpCall, Call.isGetCall]

/-- C8 witness. -/
theorem collaborator_call_discipline_witness :
    resolvesTo createFailEnv "akid-ref" "A" ∧
    resolvesTo createFailEnv "sak-ref" "B" ∧
    List.filter Call.isSecretCall
        (add_aws_source createFailEnv "p" "l" "s" "reg" "akid-ref" "sak-ref").2.1 =
      [.accessSecretVersion "akid-ref", .accessSecretVersion "sak-ref"] :=
  ⟨⟨[65], by decide, by decide⟩, ⟨[66], by decide, by decide⟩,
   (collaborator_call_discipline createFailEnv "p" "l" "s" "reg" "akid-ref" "sak-ref"
      "A" "B" ⟨[65], by decide, by decide⟩ ⟨[66], by decide, by decide⟩).1⟩

/-- C9: the credential decode is an unguarded UTF-8 decode: a payload
that is not valid UTF-8 makes `add_aws_source` fail with a decode error
that is not caught, produces no log line, and is surfaced neither as the
secret-not-found error nor as a service error. -/
theorem secret_decode_unguarded
    (env : Env) (p l sid reg r1 r2 : String) (bs : List Nat)
    (hres : env.resolveSecret r1 = some bs) (hbad : utf8Decode bs = none) :
    (add_aws_source env p l sid reg r1 r2).1 = .error (.decodeError r1) ∧
    (add_aws_source env p l sid reg r1 r2).2.2 = [] ∧
    (∀ ref, (add_aws_source env p l sid reg r1 r2).1 ≠ .error (.secretNotFound ref)) ∧
    (∀ e, (add_aws_source env p l sid reg r1 r2).1 ≠ .error (.serviceError e)) := by
  simp [add_aws_source, hres, hbad]

/-- C9 witness. -/
theorem secret_decode_unguarded_witness :
    badPayloadEnv.resolveSecret "a" = some [255] ∧
    utf8Decode [255] = none ∧
    (add_aws_source badPayloadEnv "p" "l" "s" "reg" "a" "b").1 =
      .error (.decodeError "a") :=
  ⟨rfl, by decide,
   (secret_decode_unguarded badPayloadEnv "p" "l" "s" "reg" "a" "b" [255] rfl (by decide)).1⟩

/-- C10: when the `getSource` fetch on the already-exists path itself
fails, `add_aws_source` propagates the collaborator's error as-is and no
error-level log line is emitted. -/
theorem fetch_failure_propagates_raw
    (env : Env) (p l sid reg r1 r2 s1 s2 : String) (e : SvcError)
    (h1 : resolvesTo env r1 s1) (h2 : resolvesTo env r2 s2)
    (hae : alreadyExistsSignalled env (builtRequest p l sid reg s1 s2))
    (hget : env.getSource (source_path p l sid) = .error e) :
    (add_aws_source env p l sid reg r1 r2).1 = .error (.serviceError e) ∧
    (∀ m, LogEvent.error m ∉ (add_aws_source env p l sid reg r1 r2).2.2) := by
  rw [add_aws_source_resolved env p l sid reg r1 r2 s1 s2 h1 h2]
  rcases hae with hc | ⟨op, hok, hop⟩
  · simp [submitAndWait, hc, fetchExisting, hget]
  · simp [submitAndWait, hok, hop, fetchExisting, hget]

/-- C10 witness. -/
theorem fetch_failure_propagates_raw_witness :
    resolvesTo fetchFailEnv "akid-ref" "A" ∧
    resolvesTo fetchFailEnv "sak-ref" "B" ∧
    alreadyExistsSignalled fetchFailEnv (builtRequest "p" "l" "s" "reg" "A" "B") ∧
    fetchFailEnv.getSource (source_path "p" "l" "s") = .error .notFound ∧
    (add_aws_source fetchFailEnv "p" "l" "s" "reg" "akid-ref" "sak-ref").1 =
      .error (.serviceError .notFound) :=
  ⟨⟨[65], by decide, by decide⟩, ⟨[66], by decide, by decide⟩, Or.inl rfl, rfl,
   (fetch_failure_propagates_raw fetchFailEnv "p" "l" "s" "reg" "akid-ref" "sak-ref"
      "A" "B" .notFound ⟨[65], by decide, by decide⟩ ⟨[66], by decide, by decide⟩
      (Or.inl rfl) rfl).1⟩

end Migration
